import Mathlib

/-
Verification development for the Session Synchronization Engine of
next-ai-draw-io (src/hooks/use-session-manager.ts together with the
Firestore adapter functions appended in the same file).

The TypeScript code is shallowly embedded: React state becomes an explicit
`ManagerState` record, each hook callback becomes a pure function from the
state (plus the results of the asynchronous backend calls it performs,
passed in as parameters) to the new state, an ordered trace of backend
effects, and a thrown-or-returned `Except` result.  Timestamps
(`Date.now()`) are passed in as a `now : Nat` parameter.  `undefined`
versus a supplied value is modelled with `Option`; the optional
`forSessionId` argument, whose supplied value may itself be null, is
`Option (Option String)`.

Functions of src/lib/session-storage.ts are not part of the sources; the
few that matter here (`createEmptySession`, `extractTitle`, `saveSession`)
are modelled from the spec and marked as such in their doc comments.
-/

/-- Stored chat message record (role, content, timestamp), as described by
the spec's data model for `messages`. -/
structure StoredMessage where
  role : String
  content : String
  timestamp : Nat
deriving DecidableEq, Repr

/-- One entry of `diagramHistory`: an `{svg, xml}` pair. -/
structure DiagramHistoryEntry where
  svg : String
  xml : String
deriving DecidableEq, Repr

/-- The `ChatSession` record of the source.  `xmlSnapshots` is a sequence
of `[number, string]` tuples; optional fields are `Option` (none models
both `undefined` and null). -/
structure ChatSession where
  id : String
  title : String
  messages : List StoredMessage
  xmlSnapshots : List (Nat × String)
  diagramXml : String
  thumbnailDataUrl : Option String
  diagramHistory : Option (List DiagramHistoryEntry)
  createdAt : Nat
  updatedAt : Nat
deriving DecidableEq, Repr

/-- The `SessionMetadata` projection used for list rendering. -/
structure SessionMetadata where
  id : String
  title : String
  createdAt : Nat
  updatedAt : Nat
  messageCount : Nat
  hasDiagram : Bool
  thumbnailDataUrl : Option String
deriving DecidableEq, Repr

/-- The `SessionData` payload passed to `saveCurrentSession` and returned
by `switchSession` (interface SessionData of use-session-manager.ts). -/
structure SessionData where
  messages : List StoredMessage
  xmlSnapshots : List (Nat × String)
  diagramXml : String
  thumbnailDataUrl : Option String
  diagramHistory : Option (List DiagramHistoryEntry)
deriving DecidableEq, Repr

/-- The `{ts, xml}` record that a tuple snapshot is serialized into for
Firestore transport (saveSessionToFirestore, lines 486-489). -/
structure SnapshotRecord where
  ts : Nat
  xml : String
deriving DecidableEq, Repr

/-- The document shape written by `saveSessionToFirestore`: the session
without its `id` (destructured away), with a `userId` field, serialized
snapshots, and optional fields made explicit null (modelled as `Option`
where `none` is null after `sanitizeForFirestore`). -/
structure FirestoreSessionDoc where
  userId : String
  title : String
  messages : List StoredMessage
  xmlSnapshots : List SnapshotRecord
  diagramXml : String
  thumbnailDataUrl : Option String
  diagramHistory : Option (List DiagramHistoryEntry)
  createdAt : Nat
  updatedAt : Nat
deriving DecidableEq, Repr

/-- Failures raised by the Firestore primitives: the distinguished
permission-denied code versus any other error. -/
inductive FsError where
  | permissionDenied : FsError
  | other : String → FsError
deriving DecidableEq, Repr

/-- Pure content of `saveSessionToFirestore` (lines 471-509): drop `id`,
serialize each `(ts, xml)` tuple into a `SnapshotRecord`, default the
optional fields to explicit null, and rewrite `updatedAt` with the
current time. -/
def saveSessionToFirestoreDoc (userId : String) (now : Nat)
    (session : ChatSession) : FirestoreSessionDoc :=
  { userId := userId
    title := session.title
    messages := session.messages
    xmlSnapshots := session.xmlSnapshots.map (fun p => { ts := p.1, xml := p.2 })
    diagramXml := session.diagramXml
    thumbnailDataUrl := session.thumbnailDataUrl
    diagramHistory := session.diagramHistory
    createdAt := session.createdAt
    updatedAt := now }

/-- Pure content of the `docSnap.exists()` branch of
`getSessionFromFirestore` (lines 525-537): rebuild the session from the
document, converting each `{ts, xml}` record back into a tuple and taking
the id from the document id. -/
def getSessionFromFirestoreDoc (docId : String)
    (d : FirestoreSessionDoc) : ChatSession :=
  { id := docId
    title := d.title
    messages := d.messages
    xmlSnapshots := d.xmlSnapshots.map (fun r => (r.ts, r.xml))
    diagramXml := d.diagramXml
    thumbnailDataUrl := d.thumbnailDataUrl
    diagramHistory := d.diagramHistory
    createdAt := d.createdAt
    updatedAt := d.updatedAt }

/-- One row of `getSessionsMetadataFromFirestore`'s result (lines
556-567): the metadata projection of a stored document. -/
def metadataOfDoc (docId : String) (d : FirestoreSessionDoc) : SessionMetadata :=
  { id := docId
    title := d.title
    createdAt := d.createdAt
    updatedAt := d.updatedAt
    messageCount := d.messages.length
    hasDiagram := d.diagramXml.trim != ""
    thumbnailDataUrl := d.thumbnailDataUrl }

/-- Whole-function embedding of `getSessionFromFirestore` including its
catch-all handler (lines 511-545): the primitive read either yields a
document, yields nothing (`exists()` false), or fails; every failure is
caught and converted into a null result. -/
def getSessionFromFirestore (docId : String)
    (primitive : Except FsError (Option FirestoreSessionDoc)) :
    Except FsError (Option ChatSession) :=
  match primitive with
  | .ok (some d) => .ok (some (getSessionFromFirestoreDoc docId d))
  | .ok none => .ok none
  | .error _ => .ok none

/-- Whole-function embedding of `getSessionsMetadataFromFirestore`
including its catch-all handler (lines 547-574): every failure is caught
and converted into an empty list. -/
def getSessionsMetadataFromFirestore
    (primitive : Except FsError (List (String × FirestoreSessionDoc))) :
    Except FsError (List SessionMetadata) :=
  match primitive with
  | .ok docs => .ok (docs.map (fun row => metadataOfDoc row.1 row.2))
  | .error _ => .ok []

/-- Whole-function embedding of `saveSessionToFirestore` (lines 471-509):
on a successful write the serialized document is stored; on any failure
the error is logged and rethrown. -/
def saveSessionToFirestore (userId : String) (now : Nat)
    (session : ChatSession) (writeOutcome : Option FsError) :
    Except FsError FirestoreSessionDoc :=
  match writeOutcome with
  | none => .ok (saveSessionToFirestoreDoc userId now session)
  | some e => .error e

/-- Whole-function embedding of `deleteSessionFromFirestore` (lines
576-593): on any failure the error is logged and rethrown. -/
def deleteSessionFromFirestore (deleteOutcome : Option FsError) :
    Except FsError Unit :=
  match deleteOutcome with
  | none => .ok ()
  | some e => .error e

/-- The in-memory state owned by the Session Lifecycle Controller (the
React state of useSessionManager).  The navigation sequence counter
(urlChangeSequenceRef) lives next to it in `NavSystem` below. -/
structure ManagerState where
  sessions : List SessionMetadata
  currentSessionId : Option String
  currentSession : Option ChatSession
  isLoading : Bool
  isAvailable : Bool
deriving DecidableEq, Repr

/-- Backend calls issued by a controller operation, recorded in issue
order.  The interpretation of a call against the physical store is given
by the adapter functions above (for Firestore) and the spec-modelled
local functions. -/
inductive Effect where
  | fsSaveSession : String → ChatSession → Effect
  | localSaveSession : ChatSession → Effect
  | fsGetSession : String → String → Effect
  | localGetSession : String → Effect
  | fsDeleteSession : String → String → Effect
  | localDeleteSession : String → Effect
  | enforceSessionLimit : Effect
  | refreshSessions : Effect
deriving DecidableEq, Repr

/-- Modelled from the spec: `createEmptySession` of
src/lib/session-storage.ts (not among the sources).  An empty-session
template: fresh opaque id, the sentinel title "New Chat", empty content
fields, both timestamps set at creation. -/
def createEmptySession (freshId : String) (now : Nat) : ChatSession :=
  { id := freshId
    title := "New Chat"
    messages := []
    xmlSnapshots := []
    diagramXml := ""
    thumbnailDataUrl := none
    diagramHistory := none
    createdAt := now
    updatedAt := now }

/-- Modelled from the spec: `extractTitle` of src/lib/session-storage.ts
(not among the sources).  Derives a title from message content; the
sentinel is kept when no message is available. -/
def extractTitle (messages : List StoredMessage) : String :=
  match messages with
  | [] => "New Chat"
  | m :: _ => m.content

/-- Modelled from the spec: `saveSession` of src/lib/session-storage.ts
(not among the sources) persists the session to the local store;
`updatedAt` is rewritten on every successful save.  This is the record
the local store holds afterwards. -/
def localSaveStoredSession (now : Nat) (session : ChatSession) : ChatSession :=
  { session with updatedAt := now }

/-- The `catch (e) { if (e?.code !== "permission-denied") throw e }`
pattern wrapped around every Firestore call in the hook: a
permission-denied outcome is swallowed, any other failure is rethrown. -/
def swallowPermissionDenied (outcome : Option FsError) : Except FsError Unit :=
  match outcome with
  | none => .ok ()
  | some .permissionDenied => .ok ()
  | some (.other m) => .error (.other m)

/-- TypeScript's null/undefined coalescing `a ?? b` on optional values. -/
def coalesce (a b : Option α) : Option α :=
  match a with
  | some x => some x
  | none => b

/-- The updated-session object literal of `saveCurrentSession`'s update
path (lines 367-383): content fields replaced wholesale, optionals fall
back to the previous value when absent, `updatedAt` refreshed, title
re-derived only while still the sentinel and messages are present. -/
def updateExistingSession (cs : ChatSession) (data : SessionData)
    (now : Nat) : ChatSession :=
  { cs with
    messages := data.messages
    xmlSnapshots := data.xmlSnapshots
    diagramXml := data.diagramXml
    thumbnailDataUrl := coalesce data.thumbnailDataUrl cs.thumbnailDataUrl
    diagramHistory := coalesce data.diagramHistory cs.diagramHistory
    updatedAt := now
    title :=
      if cs.title = "New Chat" ∧ data.messages.length > 0 then
        extractTitle data.messages
      else cs.title }

/-- The in-place metadata-list update of `saveCurrentSession` (lines
398-413), applied to one list entry. -/
def updateMetadataEntry (updatedSession : ChatSession)
    (s : SessionMetadata) : SessionMetadata :=
  if s.id = updatedSession.id then
    { s with
      title := updatedSession.title
      updatedAt := updatedSession.updatedAt
      messageCount := updatedSession.messages.length
      hasDiagram := updatedSession.diagramXml.trim != ""
      thumbnailDataUrl := updatedSession.thumbnailDataUrl }
  else s

/-- The new-session object literal of `saveCurrentSession`'s creation
path (lines 338-346): the empty template populated with the supplied
data, title derived from the message content. -/
def newSessionFromData (freshId : String) (now : Nat)
    (data : SessionData) : ChatSession :=
  { createEmptySession freshId now with
    messages := data.messages
    xmlSnapshots := data.xmlSnapshots
    diagramXml := data.diagramXml
    thumbnailDataUrl := data.thumbnailDataUrl
    diagramHistory := data.diagramHistory
    title := extractTitle data.messages }

/-- Body of `saveCurrentSession` after the forSessionId guard (lines
336-414).  `uid` is `some u` when `user && auth.currentUser` holds,
`fsWriteOutcome` the outcome of the Firestore write when one is issued,
`refreshResult` the list produced by the trailing `refreshSessions` call
(`none` when that call leaves the list untouched). -/
def saveCurrentSessionBody (st : ManagerState) (uid : Option String)
    (now : Nat) (freshId : String) (fsWriteOutcome : Option FsError)
    (refreshResult : Option (List SessionMetadata)) (data : SessionData) :
    Except FsError (ManagerState × List Effect) :=
  match st.currentSession with
  | none =>
    let newSession := newSessionFromData freshId now data
    match uid with
    | some u =>
      match swallowPermissionDenied fsWriteOutcome with
      | .error e => .error e
      | .ok _ =>
        let st1 := { st with currentSession := some newSession,
                             currentSessionId := some newSession.id }
        .ok ({ st1 with sessions := refreshResult.getD st1.sessions },
             [Effect.fsSaveSession u newSession, Effect.refreshSessions])
    | none =>
      let st1 := { st with currentSession := some newSession,
                           currentSessionId := some newSession.id }
      .ok ({ st1 with sessions := refreshResult.getD st1.sessions },
           [Effect.localSaveSession newSession, Effect.enforceSessionLimit,
            Effect.refreshSessions])
  | some cs =>
    let updatedSession := updateExistingSession cs data now
    let st1 := { st with currentSession := some updatedSession,
                         sessions := st.sessions.map
                           (updateMetadataEntry updatedSession) }
    match uid with
    | some u =>
      match swallowPermissionDenied fsWriteOutcome with
      | .error e => .error e
      | .ok _ => .ok (st1, [Effect.fsSaveSession u updatedSession])
    | none => .ok (st1, [Effect.localSaveSession updatedSession])

/-- Embedding of `saveCurrentSession` (lines 322-416).  `forSessionId`
is `none` when the argument was left undefined and `some v` when a value
(possibly null, hence `v : Option String`) was supplied; a supplied value
differing from the current session id discards the save. -/
def saveCurrentSession (st : ManagerState) (uid : Option String)
    (now : Nat) (freshId : String) (fsWriteOutcome : Option FsError)
    (refreshResult : Option (List SessionMetadata)) (data : SessionData)
    (forSessionId : Option (Option String)) :
    Except FsError (ManagerState × List Effect) :=
  match forSessionId with
  | some v =>
    if v = st.currentSessionId then
      saveCurrentSessionBody st uid now freshId fsWriteOutcome refreshResult data
    else
      .ok (st, [])
  | none =>
    saveCurrentSessionBody st uid now freshId fsWriteOutcome refreshResult data

/-- The save call issued for the active backend: Firestore when a
trusted identity is present, the local store otherwise. -/
def saveEffectFor (uid : Option String) (s : ChatSession) : Effect :=
  match uid with
  | some u => Effect.fsSaveSession u s
  | none => Effect.localSaveSession s

/-- The by-id load call issued for the active backend. -/
def loadEffectFor (uid : Option String) (id : String) : Effect :=
  match uid with
  | some u => Effect.fsGetSession u id
  | none => Effect.localGetSession id

/-- The delete call issued for the active backend. -/
def deleteEffectFor (uid : Option String) (id : String) : Effect :=
  match uid with
  | some u => Effect.fsDeleteSession u id
  | none => Effect.localDeleteSession id

/-- The session written by an effect, when the effect is a save. -/
def savedSessionOf : Effect → Option ChatSession
  | Effect.fsSaveSession _ s => some s
  | Effect.localSaveSession s => some s
  | _ => none

/-- Embedding of `switchSession` (lines 239-290): no-op when the target
equals the current id; otherwise save the current session first when it
has messages (a Firestore permission-denied outcome is swallowed, any
other save failure rethrown), then load the target; a missing target
leaves state untouched and returns null; otherwise current-session state
is replaced and a projection of the loaded content returned.
`fsSaveOutcome` is the outcome of the Firestore save when one is issued,
`loadResult` the session produced by the backend load. -/
def switchSession (st : ManagerState) (uid : Option String) (id : String)
    (fsSaveOutcome : Option FsError) (loadResult : Option ChatSession) :
    Except FsError (ManagerState × Option SessionData × List Effect) :=
  if some id = st.currentSessionId then
    .ok (st, none, [])
  else
    let preSave : Except FsError (List Effect) :=
      match st.currentSession with
      | some cs =>
        if cs.messages.length > 0 then
          match uid with
          | some u =>
            match swallowPermissionDenied fsSaveOutcome with
            | .ok _ => .ok [Effect.fsSaveSession u cs]
            | .error e => .error e
          | none => .ok [Effect.localSaveSession cs]
        else .ok []
      | none => .ok []
    match preSave with
    | .error e => .error e
    | .ok saveEffs =>
      let effs := saveEffs ++ [loadEffectFor uid id]
      match loadResult with
      | none => .ok (st, none, effs)
      | some session =>
        .ok ({ st with currentSession := some session,
                       currentSessionId := some session.id },
             some { messages := session.messages
                    xmlSnapshots := session.xmlSnapshots
                    diagramXml := session.diagramXml
                    thumbnailDataUrl := session.thumbnailDataUrl
                    diagramHistory := session.diagramHistory },
             effs)

/-- Embedding of `deleteSession` (lines 293-318): record whether the
deleted id was current, delete via the active backend (a Firestore
permission-denied outcome swallowed, any other failure rethrown; a local
failure propagates), clear current-session state when it was current,
then refresh the metadata list.  `refreshResult` is the list the refresh
produced (`none` when the refresh left the list untouched). -/
def deleteSession (st : ManagerState) (uid : Option String) (id : String)
    (deleteOutcome : Option FsError)
    (refreshResult : Option (List SessionMetadata)) :
    Except FsError (ManagerState × Bool × List Effect) :=
  let wasCurrentSession := some id = st.currentSessionId
  let deleteStep : Except FsError Unit :=
    match uid with
    | some _ => swallowPermissionDenied deleteOutcome
    | none =>
      match deleteOutcome with
      | none => .ok ()
      | some e => .error e
  match deleteStep with
  | .error e => .error e
  | .ok _ =>
    let st1 :=
      if wasCurrentSession then
        { st with currentSession := none, currentSessionId := none }
      else st
    .ok ({ st1 with sessions := refreshResult.getD st1.sessions },
         decide wasCurrentSession,
         [deleteEffectFor uid id, Effect.refreshSessions])

/-- Embedding of the async body of the URL-change reaction
`handleSessionIdChange` (lines 186-224), evaluated at resolution time:
when the desired id is truthy a load was started with the sequence value
`captured` taken at issue time; the result is discarded unless `captured`
still equals the live counter `seqNow`; a found session replaces
current-session state only when its id differs from the current one.  A
null (or empty, hence falsy) desired id changes nothing. -/
def handleSessionIdChange (desired : Option String) (captured seqNow : Nat)
    (loaded : Option ChatSession) (st : ManagerState) : ManagerState :=
  match desired with
  | none => st
  | some d =>
    if d = "" then st
    else if captured ≠ seqNow then st
    else
      match loaded with
      | none => st
      | some session =>
        if st.currentSessionId = some session.id then st
        else { st with currentSession := some session,
                       currentSessionId := some session.id }

/-- A navigation-side view of the controller: the live sequence counter
together with the managed state. -/
structure NavSystem where
  seq : Nat
  st : ManagerState
deriving DecidableEq, Repr

/-- The synchronous prefix of the URL-change effect (lines 178-184): when
the controller is past its initial load and available, the counter is
incremented and its new value captured for the async body; otherwise
nothing is issued. -/
def issueDesiredChange (isInit isAvail : Bool) (sys : NavSystem) :
    NavSystem × Option Nat :=
  if isInit && isAvail then
    ({ sys with seq := sys.seq + 1 }, some (sys.seq + 1))
  else (sys, none)

/-- Resolution of a previously issued desired-id load: the async body
runs against the live counter. -/
def resolveDesiredChange (sys : NavSystem) (captured : Nat)
    (desired : Option String) (loaded : Option ChatSession) : NavSystem :=
  { sys with st := handleSessionIdChange desired captured sys.seq loaded sys.st }

/-- A concrete message used by the witnesses. -/
def sampleMessage : StoredMessage :=
  { role := "user", content := "draw a cat", timestamp := 5 }

/-- A concrete controller state with no current session. -/
def sampleBlankState : ManagerState :=
  { sessions := []
    currentSessionId := none
    currentSession := none
    isLoading := false
    isAvailable := true }

/-- A concrete session used by the witnesses. -/
def sampleSession : ChatSession :=
  { id := "s1"
    title := "cats"
    messages := [sampleMessage]
    xmlSnapshots := [(1, "<a/>")]
    diagramXml := "<d/>"
    thumbnailDataUrl := none
    diagramHistory := none
    createdAt := 1
    updatedAt := 2 }

/-- A concrete controller state whose current session is `sampleSession`. -/
def sampleLoadedState : ManagerState :=
  { sessions := [{ id := "s1", title := "cats", createdAt := 1, updatedAt := 2,
                   messageCount := 1, hasDiagram := true, thumbnailDataUrl := none }]
    currentSessionId := some "s1"
    currentSession := some sampleSession
    isLoading := false
    isAvailable := true }

/-- A concrete session stored under id "B", used by the navigation witness. -/
def sampleSessionB : ChatSession :=
  { id := "B"
    title := "New Chat"
    messages := []
    xmlSnapshots := []
    diagramXml := ""
    thumbnailDataUrl := none
    diagramHistory := none
    createdAt := 3
    updatedAt := 3 }

/-- Serializing tuples into records and back is the identity. -/
theorem snapshots_serialization_roundtrip (l : List (Nat × String)) :
    (l.map (fun p => SnapshotRecord.mk p.1 p.2)).map (fun r => (r.ts, r.xml)) = l := by
  induction l with
  | nil => rfl
  | cons p t ih => simp [ih]

/-- C6: serializing `xmlSnapshots` into `{ts, xml}` records on remote save
and reversing the transform on remote read round-trips: reading back a
saved session yields `xmlSnapshots` equal pair-for-pair in the same
order, and field-for-field equal `messages` and `diagramXml`. -/
theorem firestore_save_load_roundtrip (userId : String) (now : Nat)
    (session : ChatSession) :
    (getSessionFromFirestoreDoc session.id
        (saveSessionToFirestoreDoc userId now session)).xmlSnapshots
        = session.xmlSnapshots ∧
    (getSessionFromFirestoreDoc session.id
        (saveSessionToFirestoreDoc userId now session)).messages
        = session.messages ∧
    (getSessionFromFirestoreDoc session.id
        (saveSessionToFirestoreDoc userId now session)).diagramXml
        = session.diagramXml := by
  refine ⟨?_, rfl, rfl⟩
  exact snapshots_serialization_roundtrip session.xmlSnapshots

/-- C1: a call `saveCurrentSession(data, forSessionId = X)` where the
supplied X differs from the controller's current session id at call time
returns without persisting anything (no backend effect) and without
changing any controller state, for all X and all data. -/
theorem saveCurrentSession_stale_target_noop (st : ManagerState)
    (uid : Option String) (now : Nat) (freshId : String)
    (fsWriteOutcome : Option FsError)
    (refreshResult : Option (List SessionMetadata)) (data : SessionData)
    (X : Option String) (h : X ≠ st.currentSessionId) :
    saveCurrentSession st uid now freshId fsWriteOutcome refreshResult data
        (some X) = .ok (st, []) := by
  simp [saveCurrentSession, h]

/-- Witness for C1 at a concrete stale target. -/
theorem saveCurrentSession_stale_target_noop_witness :
    (some "other" : Option String) ≠ sampleLoadedState.currentSessionId ∧
    saveCurrentSession sampleLoadedState none 7 "fresh" none none
        { messages := [sampleMessage], xmlSnapshots := [], diagramXml := "",
          thumbnailDataUrl := none, diagramHistory := none }
        (some (some "other")) = .ok (sampleLoadedState, []) :=
  ⟨by decide,
   saveCurrentSession_stale_target_noop sampleLoadedState none 7 "fresh" none none
     { messages := [sampleMessage], xmlSnapshots := [], diagramXml := "",
       thumbnailDataUrl := none, diagramHistory := none }
     (some "other") (by decide)⟩

/-- C5: the reaction to a desired-session-id change never clears the
current session.  A null desired id leaves the state untouched; in
general the reaction either leaves the state unchanged or replaces the
current session with a loaded one, and it never moves a loaded state to
a blank one. -/
theorem handleSessionIdChange_never_clears (desired : Option String)
    (captured seqNow : Nat) (loaded : Option ChatSession)
    (st : ManagerState) :
    (desired = none →
        handleSessionIdChange desired captured seqNow loaded st = st) ∧
    (handleSessionIdChange desired captured seqNow loaded st = st ∨
      ∃ session, loaded = some session ∧
        handleSessionIdChange desired captured seqNow loaded st
          = { st with currentSession := some session,
                      currentSessionId := some session.id }) ∧
    ((handleSessionIdChange desired captured seqNow loaded st).currentSessionId
        = none → st.currentSessionId = none) := by
  refine ⟨?_, ?_, ?_⟩
  · intro h; subst h; rfl
  · cases desired with
    | none => exact Or.inl rfl
    | some d =>
      by_cases hd : d = ""
      · exact Or.inl (by simp [handleSessionIdChange, hd])
      · by_cases hseq : captured = seqNow
        · cases loaded with
          | none => exact Or.inl (by simp [handleSessionIdChange, hd, hseq])
          | some session =>
            by_cases hcur : st.currentSessionId = some session.id
            · exact Or.inl (by simp [handleSessionIdChange, hd, hseq, hcur])
            · exact Or.inr ⟨session, rfl,
                by simp [handleSessionIdChange, hd, hseq, hcur]⟩
        · exact Or.inl (by simp [handleSessionIdChange, hd, hseq])
  · intro h
    cases desired with
    | none => exact h
    | some d =>
      by_cases hd : d = ""
      · simpa [handleSessionIdChange, hd] using h
      · by_cases hseq : captured = seqNow
        · cases loaded with
          | none => simpa [handleSessionIdChange, hd, hseq] using h
          | some session =>
            by_cases hcur : st.currentSessionId = some session.id
            · simp [handleSessionIdChange, hd, hseq, hcur] at h
            · simp [handleSessionIdChange, hd, hseq, hcur] at h
        · simpa [handleSessionIdChange, hd, hseq] using h

/-- Witness for C5 at a concrete loaded state and a null desired id. -/
theorem handleSessionIdChange_never_clears_witness :
    handleSessionIdChange none 1 1 none sampleLoadedState = sampleLoadedState ∧
    sampleLoadedState.currentSessionId ≠ none :=
  ⟨(handleSessionIdChange_never_clears none 1 1 none sampleLoadedState).1 rfl,
   by decide⟩

/-- C2: navigation results are ordered by issue time of the latest
request.  Resolving any load whose captured sequence value is stale
leaves the system untouched; in particular, after two desired-id changes
issued in order A-then-B, A's load resolving after B was issued is
discarded, and B's resolution makes B the current session id, never A. -/
theorem navigation_latest_issue_wins (sys : NavSystem) (A B : String)
    (loadedA : Option ChatSession) (sessB : ChatSession)
    (hB : B ≠ "") (hid : sessB.id = B) :
    (∀ captured desired loaded, captured ≠ sys.seq →
        resolveDesiredChange sys captured desired loaded = sys) ∧
    (resolveDesiredChange
        (issueDesiredChange true true (issueDesiredChange true true sys).1).1
        (sys.seq + 1) (some A) loadedA
      = (issueDesiredChange true true (issueDesiredChange true true sys).1).1) ∧
    ((resolveDesiredChange
        (resolveDesiredChange
          (issueDesiredChange true true (issueDesiredChange true true sys).1).1
          (sys.seq + 1) (some A) loadedA)
        (sys.seq + 2) (some B) (some sessB)).st.currentSessionId = some B) := by
  have discard : ∀ (s : NavSystem) captured desired loaded, captured ≠ s.seq →
      resolveDesiredChange s captured desired loaded = s := by
    intro s captured desired loaded hne
    have hb : handleSessionIdChange desired captured s.seq loaded s.st = s.st := by
      cases desired with
      | none => rfl
      | some d =>
        by_cases hd : d = ""
        · simp [handleSessionIdChange, hd]
        · simp [handleSessionIdChange, hd, hne]
    simp [resolveDesiredChange, hb]
  have hseq2 : (issueDesiredChange true true
      (issueDesiredChange true true sys).1).1.seq = sys.seq + 2 := by
    simp [issueDesiredChange]
  refine ⟨fun captured desired loaded hne => discard sys captured desired loaded hne,
    ?_, ?_⟩
  · exact discard _ _ _ _ (by omega)
  · have hA : resolveDesiredChange
        (issueDesiredChange true true (issueDesiredChange true true sys).1).1
        (sys.seq + 1) (some A) loadedA
      = (issueDesiredChange true true (issueDesiredChange true true sys).1).1 :=
      discard _ _ _ _ (by omega)
    rw [hA]
    by_cases hcur : (issueDesiredChange true true
        (issueDesiredChange true true sys).1).1.st.currentSessionId = some sessB.id
    · have hst : (resolveDesiredChange
          (issueDesiredChange true true (issueDesiredChange true true sys).1).1
          (sys.seq + 2) (some B) (some sessB)).st
        = (issueDesiredChange true true (issueDesiredChange true true sys).1).1.st := by
        simp [resolveDesiredChange, handleSessionIdChange, hB, hseq2, hcur]
      rw [hst, hcur, hid]
    · simp [resolveDesiredChange, handleSessionIdChange, hB, hseq2, hcur, hid]
      split <;> simp_all

/-- Witness for C2: a concrete pair of rapid desired-id changes where the
first load resolves late and is discarded. -/
theorem navigation_latest_issue_wins_witness :
    ("B" : String) ≠ "" ∧ sampleSessionB.id = "B" ∧
    (resolveDesiredChange
        (resolveDesiredChange
          (issueDesiredChange true true
            (issueDesiredChange true true ⟨0, sampleBlankState⟩).1).1
          1 (some "A") (some sampleSession))
        2 (some "B") (some sampleSessionB)).st.currentSessionId = some "B" :=
  ⟨by decide, by decide,
   (navigation_latest_issue_wins ⟨0, sampleBlankState⟩ "A" "B"
      (some sampleSession) sampleSessionB (by decide) (by decide)).2.2⟩

/-- C4: for every completed `deleteSession(id)` call, when id equals the
current session id the current-session state is cleared and the returned
wasCurrentSession is true; when it differs the current-session state is
unchanged and wasCurrentSession is false; in both cases the effect trace
is exactly the backend delete followed by a metadata-list refresh. -/
theorem deleteSession_clears_current_iff (st : ManagerState)
    (uid : Option String) (id : String) (deleteOutcome : Option FsError)
    (refreshResult : Option (List SessionMetadata)) (st2 : ManagerState)
    (wasCur : Bool) (effs : List Effect)
    (h : deleteSession st uid id deleteOutcome refreshResult
          = .ok (st2, wasCur, effs)) :
    (some id = st.currentSessionId →
        st2.currentSession = none ∧ st2.currentSessionId = none ∧
        wasCur = true) ∧
    (some id ≠ st.currentSessionId →
        st2.currentSession = st.currentSession ∧
        st2.currentSessionId = st.currentSessionId ∧ wasCur = false) ∧
    effs = [deleteEffectFor uid id, Effect.refreshSessions] := by
  by_cases hc : some id = st.currentSessionId
  · rcases uid with _ | u
    · rcases deleteOutcome with _ | e
      · simp [deleteSession, hc] at h
        obtain ⟨h1, h2, h3⟩ := h
        subst h1; subst h2; subst h3
        simp [hc]
      · simp [deleteSession, hc] at h
    · rcases deleteOutcome with _ | e
      · simp [deleteSession, swallowPermissionDenied, hc] at h
        obtain ⟨h1, h2, h3⟩ := h
        subst h1; subst h2; subst h3
        simp [hc]
      · cases e
        · simp [deleteSession, swallowPermissionDenied, hc] at h
          obtain ⟨h1, h2, h3⟩ := h
          subst h1; subst h2; subst h3
          simp [hc]
        · simp [deleteSession, swallowPermissionDenied, hc] at h
  · rcases uid with _ | u
    · rcases deleteOutcome with _ | e
      · simp [deleteSession, hc] at h
        obtain ⟨h1, h2, h3⟩ := h
        subst h1; subst h2; subst h3
        simp [hc]
      · simp [deleteSession, hc] at h
    · rcases deleteOutcome with _ | e
      · simp [deleteSession, swallowPermissionDenied, hc] at h
        obtain ⟨h1, h2, h3⟩ := h
        subst h1; subst h2; subst h3
        simp [hc]
      · cases e
        · simp [deleteSession, swallowPermissionDenied, hc] at h
          obtain ⟨h1, h2, h3⟩ := h
          subst h1; subst h2; subst h3
          simp [hc]
        · simp [deleteSession, swallowPermissionDenied, hc] at h

/-- Witness for C4: deleting the concrete current session clears state
and reports wasCurrentSession. -/
theorem deleteSession_clears_current_iff_witness :
    ({ sampleLoadedState with
        currentSession := none
        currentSessionId := none } : ManagerState).currentSession = none ∧
    ({ sampleLoadedState with
        currentSession := none
        currentSessionId := none } : ManagerState).currentSessionId = none ∧
    (true : Bool) = true :=
  (deleteSession_clears_current_iff sampleLoadedState none "s1" none none
      { sampleLoadedState with currentSession := none, currentSessionId := none }
      true [Effect.localDeleteSession "s1", Effect.refreshSessions]
      (by rfl)).1 (by decide)

/-- A save call records exactly the session it persists. -/
theorem savedSessionOf_saveEffectFor (uid : Option String) (s : ChatSession) :
    savedSessionOf (saveEffectFor uid s) = some s := by
  cases uid <;> rfl

/-- A load call persists nothing. -/
theorem savedSessionOf_loadEffectFor (uid : Option String) (id : String) :
    savedSessionOf (loadEffectFor uid id) = none := by
  cases uid <;> rfl

/-- C3: for every completed `switchSession(targetId)` call with a target
differing from the current id, the effect trace is the conditional
save-of-current followed by the target load: the current session is
persisted before the load begins exactly when a current session exists
and holds at least one message, and an empty session is never saved. -/
theorem switchSession_save_before_load (st : ManagerState)
    (uid : Option String) (id : String) (fsSaveOutcome : Option FsError)
    (loadResult : Option ChatSession) (hne : some id ≠ st.currentSessionId)
    (st2 : ManagerState) (r : Option SessionData) (effs : List Effect)
    (h : switchSession st uid id fsSaveOutcome loadResult
          = .ok (st2, r, effs)) :
    effs = (match st.currentSession with
            | some cs =>
              if cs.messages.length > 0 then [saveEffectFor uid cs] else []
            | none => []) ++ [loadEffectFor uid id] ∧
    ((∃ cs, st.currentSession = some cs ∧ cs.messages.length > 0) ↔
      ∃ e ∈ effs, (savedSessionOf e).isSome) := by
  rcases hcs : st.currentSession with _ | cs
  · have heffs : effs = [loadEffectFor uid id] := by
      rcases loadResult with _ | session <;>
        · simp [switchSession, hne, hcs] at h
          exact h.2.2.symm
    subst heffs
    simp [hcs, savedSessionOf_loadEffectFor]
  · by_cases hlen : cs.messages.length > 0
    · have heffs : effs = [saveEffectFor uid cs, loadEffectFor uid id] := by
        rcases uid with _ | u
        · rcases loadResult with _ | session <;>
            · simp [switchSession, hne, hcs, hlen, saveEffectFor,
                loadEffectFor] at h
              exact h.2.2.symm
        · rcases fsSaveOutcome with _ | e
          · rcases loadResult with _ | session <;>
              · simp [switchSession, hne, hcs, hlen, swallowPermissionDenied,
                  saveEffectFor, loadEffectFor] at h
                exact h.2.2.symm
          · cases e
            · rcases loadResult with _ | session <;>
                · simp [switchSession, hne, hcs, hlen, swallowPermissionDenied,
                    saveEffectFor, loadEffectFor] at h
                  exact h.2.2.symm
            · simp [switchSession, hne, hcs, hlen, swallowPermissionDenied] at h
      subst heffs
      constructor
      · simp [hcs, hlen]
      · constructor
        · intro _
          exact ⟨saveEffectFor uid cs, by simp,
            by simp [savedSessionOf_saveEffectFor]⟩
        · intro _
          exact ⟨cs, rfl, hlen⟩
    · have heffs : effs = [loadEffectFor uid id] := by
        rcases loadResult with _ | session <;>
          · simp [switchSession, hne, hcs, hlen] at h
            exact h.2.2.symm
      subst heffs
      constructor
      · simp [hcs, hlen]
      · constructor
        · rintro ⟨cs2, hcs2, hlen2⟩
          injection hcs2 with h2
          subst h2
          exact absurd hlen2 hlen
        · rintro ⟨e, he, hsome⟩
          simp at he
          subst he
          simp [savedSessionOf_loadEffectFor] at hsome

/-- Witness for C3: switching away from the concrete loaded session (one
message) issues its save before the target load. -/
theorem switchSession_save_before_load_witness :
    some "B" ≠ sampleLoadedState.currentSessionId ∧
    [Effect.localSaveSession sampleSession, Effect.localGetSession "B"]
      = (match sampleLoadedState.currentSession with
         | some cs =>
           if cs.messages.length > 0 then [saveEffectFor none cs] else []
         | none => []) ++ [loadEffectFor none "B"] :=
  ⟨by decide,
   (switchSession_save_before_load sampleLoadedState none "B" none
      (some sampleSessionB) (by decide)
      { sampleLoadedState with
        currentSession := some sampleSessionB
        currentSessionId := some "B" }
      (some { messages := sampleSessionB.messages
              xmlSnapshots := sampleSessionB.xmlSnapshots
              diagramXml := sampleSessionB.diagramXml
              thumbnailDataUrl := sampleSessionB.thumbnailDataUrl
              diagramHistory := sampleSessionB.diagramHistory })
      [Effect.localSaveSession sampleSession, Effect.localGetSession "B"]
      (by rfl)).1⟩

/-- The effect trace of a completed switch away from the current id. -/
theorem switchSession_effects_shape (st : ManagerState) (uid : Option String)
    (id : String) (fsSaveOutcome : Option FsError)
    (loadResult : Option ChatSession) (hne : some id ≠ st.currentSessionId)
    (st2 : ManagerState) (r : Option SessionData) (effs : List Effect)
    (h : switchSession st uid id fsSaveOutcome loadResult
          = .ok (st2, r, effs)) :
    effs = (match st.currentSession with
            | some cs =>
              if cs.messages.length > 0 then [saveEffectFor uid cs] else []
            | none => []) ++ [loadEffectFor uid id] := by
  rcases hcs : st.currentSession with _ | cs
  · rcases loadResult with _ | session <;>
      · simp [switchSession, hne, hcs] at h
        simp [hcs, h.2.2.symm]
  · by_cases hlen : cs.messages.length > 0
    · rcases uid with _ | u
      · rcases loadResult with _ | session <;>
          · simp [switchSession, hne, hcs, hlen, saveEffectFor,
              loadEffectFor] at h
            simp [hcs, hlen, saveEffectFor, loadEffectFor, h.2.2.symm]
      · rcases fsSaveOutcome with _ | e
        · rcases loadResult with _ | session <;>
            · simp [switchSession, hne, hcs, hlen, swallowPermissionDenied,
                saveEffectFor, loadEffectFor] at h
              simp [hcs, hlen, saveEffectFor, loadEffectFor, h.2.2.symm]
        · cases e
          · rcases loadResult with _ | session <;>
              · simp [switchSession, hne, hcs, hlen, swallowPermissionDenied,
                  saveEffectFor, loadEffectFor] at h
                simp [hcs, hlen, saveEffectFor, loadEffectFor, h.2.2.symm]
          · simp [switchSession, hne, hcs, hlen, swallowPermissionDenied] at h
    · rcases loadResult with _ | session <;>
        · simp [switchSession, hne, hcs, hlen] at h
          simp [hcs, hlen, h.2.2.symm]

/-- The only session a switch ever hands to a backend save is the current
one at call time. -/
theorem switchSession_saves_only_current (st : ManagerState)
    (uid : Option String) (id : String) (fsSaveOutcome : Option FsError)
    (loadResult : Option ChatSession) (st2 : ManagerState)
    (r : Option SessionData) (effs : List Effect)
    (h : switchSession st uid id fsSaveOutcome loadResult
          = .ok (st2, r, effs)) :
    ∀ e ∈ effs, ∀ s2, savedSessionOf e = some s2 →
      st.currentSession = some s2 := by
  by_cases hguard : some id = st.currentSessionId
  · simp [switchSession, hguard] at h
    obtain ⟨-, -, h3⟩ := h
    subst h3
    intro e he
    simp at he
  · have hshape := switchSession_effects_shape st uid id fsSaveOutcome
      loadResult hguard st2 r effs h
    subst hshape
    intro e he s2 hs2
    rcases hcs : st.currentSession with _ | cs
    · rw [hcs] at he
      simp at he
      subst he
      rw [savedSessionOf_loadEffectFor] at hs2
      simp at hs2
    · by_cases hlen : cs.messages.length > 0
      · rw [hcs] at he
        simp [hlen] at he
        rcases he with he | he
        · subst he
          rw [savedSessionOf_saveEffectFor] at hs2
          injection hs2 with h2
          subst h2
          rfl
        · subst he
          rw [savedSessionOf_loadEffectFor] at hs2
          simp at hs2
      · rw [hcs] at he
        simp [hlen] at he
        subst he
        rw [savedSessionOf_loadEffectFor] at hs2
        simp at hs2

/-- C9: every successful save rewrites `updatedAt` with the current
time, on the Firestore adapter used by both paths, on the spec-modelled
local save, and on the update path of `saveCurrentSession`; under a
non-decreasing clock the new value is never smaller than the one it
replaces; and the save-before-switch of `switchSession` only ever hands
the current session itself to those saves. -/
theorem updatedAt_rewritten_on_save (userId : String) (now : Nat)
    (s : ChatSession) (data : SessionData) (h : s.updatedAt ≤ now) :
    (saveSessionToFirestoreDoc userId now s).updatedAt = now ∧
    s.updatedAt ≤ (saveSessionToFirestoreDoc userId now s).updatedAt ∧
    (localSaveStoredSession now s).updatedAt = now ∧
    s.updatedAt ≤ (localSaveStoredSession now s).updatedAt ∧
    (updateExistingSession s data now).updatedAt = now ∧
    s.updatedAt ≤ (updateExistingSession s data now).updatedAt ∧
    (∀ st uid id o lr st2 r effs,
      switchSession st uid id o lr = Except.ok (st2, r, effs) →
      ∀ e ∈ effs, ∀ s2, savedSessionOf e = some s2 →
        st.currentSession = some s2) :=
  ⟨rfl, h, rfl, h, rfl, h,
   fun st uid id o lr st2 r effs hok =>
     switchSession_saves_only_current st uid id o lr st2 r effs hok⟩

/-- Witness for C9 at a concrete session and clock value. -/
theorem updatedAt_rewritten_on_save_witness :
    sampleSession.updatedAt ≤ 5 ∧
    (saveSessionToFirestoreDoc "u1" 5 sampleSession).updatedAt = 5 ∧
    sampleSession.updatedAt
      ≤ (saveSessionToFirestoreDoc "u1" 5 sampleSession).updatedAt := by
  have ht := updatedAt_rewritten_on_save "u1" 5 sampleSession
    { messages := [sampleMessage], xmlSnapshots := [], diagramXml := "",
      thumbnailDataUrl := none, diagramHistory := none } (by decide)
  exact ⟨by decide, ht.1, ht.2.1⟩

/-- A completed `saveCurrentSession` body call with an existing current
session takes exactly the update path: the updated session becomes
current, the metadata entry is rewritten in place, and the single effect
is the backend save of the updated session. -/
theorem saveCurrentSessionBody_update (st : ManagerState)
    (uid : Option String) (now : Nat) (freshId : String)
    (fsWriteOutcome : Option FsError)
    (refreshResult : Option (List SessionMetadata)) (data : SessionData)
    (cs : ChatSession) (hcs : st.currentSession = some cs)
    (st2 : ManagerState) (effs : List Effect)
    (h : saveCurrentSessionBody st uid now freshId fsWriteOutcome
          refreshResult data = .ok (st2, effs)) :
    st2 = { st with
            currentSession := some (updateExistingSession cs data now)
            sessions := st.sessions.map
              (updateMetadataEntry (updateExistingSession cs data now)) } ∧
    effs = [saveEffectFor uid (updateExistingSession cs data now)] := by
  rcases uid with _ | u
  · simp [saveCurrentSessionBody, hcs, saveEffectFor] at h
    exact ⟨h.1.symm, h.2.symm⟩
  · rcases fsWriteOutcome with _ | e
    · simp [saveCurrentSessionBody, hcs, swallowPermissionDenied,
        saveEffectFor] at h
      exact ⟨h.1.symm, h.2.symm⟩
    · cases e
      · simp [saveCurrentSessionBody, hcs, swallowPermissionDenied,
          saveEffectFor] at h
        exact ⟨h.1.symm, h.2.symm⟩
      · simp [saveCurrentSessionBody, hcs, swallowPermissionDenied] at h

/-- C7: title derivation is idempotent.  Once the title differs from the
sentinel "New Chat", the update path leaves it unchanged for every
incoming payload, and every completed `saveCurrentSession` call keeps
the current session's title; the title is re-derived from messages only
while it still equals the sentinel and the incoming messages are
non-empty. -/
theorem title_derivation_idempotent (cs : ChatSession) (data : SessionData)
    (now : Nat) :
    (cs.title ≠ "New Chat" →
        (updateExistingSession cs data now).title = cs.title) ∧
    (cs.title = "New Chat" → data.messages.length > 0 →
        (updateExistingSession cs data now).title
          = extractTitle data.messages) ∧
    (cs.title = "New Chat" → data.messages.length = 0 →
        (updateExistingSession cs data now).title = cs.title) ∧
    (∀ st uid freshId fsWriteOutcome refreshResult forSessionId st2 effs,
      st.currentSession = some cs → cs.title ≠ "New Chat" →
      saveCurrentSession st uid now freshId fsWriteOutcome refreshResult
          data forSessionId = .ok (st2, effs) →
      ∃ s2, st2.currentSession = some s2 ∧ s2.title = cs.title) := by
  have htitle : cs.title ≠ "New Chat" →
      (updateExistingSession cs data now).title = cs.title := by
    intro hne
    simp [updateExistingSession, hne]
  refine ⟨htitle, ?_, ?_, ?_⟩
  · intro h1 h2
    simp [updateExistingSession, h1, h2]
  · intro h1 h2
    simp [updateExistingSession, h1, h2]
  · intro st uid freshId fsWriteOutcome refreshResult forSessionId st2 effs
      hcs hnt h
    rcases forSessionId with _ | v
    · simp only [saveCurrentSession] at h
      obtain ⟨hst, -⟩ := saveCurrentSessionBody_update st uid now freshId
        fsWriteOutcome refreshResult data cs hcs st2 effs h
      exact ⟨updateExistingSession cs data now, by rw [hst], htitle hnt⟩
    · by_cases hv : v = st.currentSessionId
      · simp only [saveCurrentSession, hv, if_pos] at h
        obtain ⟨hst, -⟩ := saveCurrentSessionBody_update st uid now freshId
          fsWriteOutcome refreshResult data cs hcs st2 effs h
        exact ⟨updateExistingSession cs data now, by rw [hst], htitle hnt⟩
      · simp [saveCurrentSession, hv] at h
        obtain ⟨h1, -⟩ := h
        exact ⟨cs, by rw [← h1]; exact hcs, rfl⟩

/-- Witness for C7: the concrete session's non-default title survives an
update carrying a fresh message. -/
theorem title_derivation_idempotent_witness :
    sampleSession.title ≠ "New Chat" ∧
    (updateExistingSession sampleSession
        { messages := [sampleMessage, sampleMessage], xmlSnapshots := [],
          diagramXml := "", thumbnailDataUrl := none,
          diagramHistory := none } 9).title = sampleSession.title :=
  ⟨by decide,
   (title_derivation_idempotent sampleSession
      { messages := [sampleMessage, sampleMessage], xmlSnapshots := [],
        diagramXml := "", thumbnailDataUrl := none,
        diagramHistory := none } 9).1 (by decide)⟩

/-- C10: when the authenticated Firestore write inside
`saveCurrentSession` fails with permission-denied, the call returns
exactly what a successful save returns: the new or updated session
becomes current, the current id is set on the creation path, and the
metadata list is updated, while the remote store was not updated.  The
first conjunct is the literal equality of outcomes; the other two spell
out the resulting state on each path. -/
theorem save_permission_denied_still_updates_memory (st : ManagerState)
    (u : String) (now : Nat) (freshId : String)
    (refreshResult : Option (List SessionMetadata)) (data : SessionData)
    (forSessionId : Option (Option String)) :
    saveCurrentSession st (some u) now freshId
        (some FsError.permissionDenied) refreshResult data forSessionId
      = saveCurrentSession st (some u) now freshId none refreshResult data
          forSessionId ∧
    (st.currentSession = none →
      saveCurrentSession st (some u) now freshId
          (some FsError.permissionDenied) refreshResult data none
        = .ok ({ st with
                 currentSession := some (newSessionFromData freshId now data)
                 currentSessionId := some (newSessionFromData freshId now data).id
                 sessions := refreshResult.getD st.sessions },
               [Effect.fsSaveSession u (newSessionFromData freshId now data),
                Effect.refreshSessions])) ∧
    (∀ cs, st.currentSession = some cs →
      saveCurrentSession st (some u) now freshId
          (some FsError.permissionDenied) refreshResult data none
        = .ok ({ st with
                 currentSession := some (updateExistingSession cs data now)
                 sessions := st.sessions.map
                   (updateMetadataEntry (updateExistingSession cs data now)) },
               [Effect.fsSaveSession u (updateExistingSession cs data now)])) := by
  refine ⟨?_, ?_, ?_⟩
  · rcases forSessionId with _ | v
    · rcases hcs : st.currentSession with _ | cs <;>
        simp [saveCurrentSession, saveCurrentSessionBody, hcs,
          swallowPermissionDenied]
    · by_cases hv : v = st.currentSessionId
      · rcases hcs : st.currentSession with _ | cs <;>
          simp [saveCurrentSession, saveCurrentSessionBody, hv, hcs,
            swallowPermissionDenied]
      · simp [saveCurrentSession, hv]
  · intro hcs
    simp [saveCurrentSession, saveCurrentSessionBody, hcs,
      swallowPermissionDenied]
  · intro cs hcs
    simp [saveCurrentSession, saveCurrentSessionBody, hcs,
      swallowPermissionDenied]

/-- Witness for C10: the concrete loaded state updated under a
permission-denied write equals the successful-save outcome. -/
theorem save_permission_denied_still_updates_memory_witness :
    sampleLoadedState.currentSession = some sampleSession ∧
    saveCurrentSession sampleLoadedState (some "u1") 9 "fresh"
        (some FsError.permissionDenied) none
        { messages := [sampleMessage], xmlSnapshots := [], diagramXml := "",
          thumbnailDataUrl := none, diagramHistory := none } none
      = .ok ({ sampleLoadedState with
               currentSession := some (updateExistingSession sampleSession
                 { messages := [sampleMessage], xmlSnapshots := [],
                   diagramXml := "", thumbnailDataUrl := none,
                   diagramHistory := none } 9)
               sessions := sampleLoadedState.sessions.map
                 (updateMetadataEntry (updateExistingSession sampleSession
                   { messages := [sampleMessage], xmlSnapshots := [],
                     diagramXml := "", thumbnailDataUrl := none,
                     diagramHistory := none } 9)) },
             [Effect.fsSaveSession "u1" (updateExistingSession sampleSession
               { messages := [sampleMessage], xmlSnapshots := [],
                 diagramXml := "", thumbnailDataUrl := none,
                 diagramHistory := none } 9)]) :=
  ⟨rfl,
   (save_permission_denied_still_updates_memory sampleLoadedState "u1" 9
      "fresh" none
      { messages := [sampleMessage], xmlSnapshots := [], diagramXml := "",
        thumbnailDataUrl := none, diagramHistory := none }
      none).2.2 sampleSession rfl⟩

/-- Counterexample to C8: the Firestore adapter does not itself classify
failures the way the claim states.  A non-permission failure ("network")
on the by-id read is converted into a null result instead of being
rethrown, a non-permission failure on the metadata read is converted into
an empty list, and a permission-denied failure on the write path is
rethrown instead of swallowed. -/
theorem fs_adapter_classification_counterexample :
    getSessionFromFirestore "s1" (Except.error (FsError.other "network"))
      = Except.ok none ∧
    getSessionFromFirestore "s1" (Except.error (FsError.other "network"))
      ≠ Except.error (FsError.other "network") ∧
    getSessionsMetadataFromFirestore (Except.error (FsError.other "network"))
      = Except.ok [] ∧
    saveSessionToFirestore "u1" 0 sampleSession
        (some FsError.permissionDenied)
      = Except.error FsError.permissionDenied := by
  refine ⟨rfl, ?_, rfl, rfl⟩
  intro h
  cases h

/-- C8 as amended: the remote adapter's read paths (`getSessionFromFirestore`,
`getSessionsMetadataFromFirestore`) swallow every failure — permission-denied
or not — returning a null result or an empty list, while its write paths
(`saveSessionToFirestore`, `deleteSessionFromFirestore`) rethrow every
failure including permission-denied; the permission-denied-specific
classification (swallow it, rethrow everything else) is performed by the
calling controller around each backend call. -/
theorem fs_adapter_failure_classification (docId userId : String)
    (now : Nat) (session : ChatSession) (e : FsError) (m : String) :
    getSessionFromFirestore docId (Except.error e) = Except.ok none ∧
    getSessionsMetadataFromFirestore (Except.error e) = Except.ok [] ∧
    saveSessionToFirestore userId now session (some e) = Except.error e ∧
    deleteSessionFromFirestore (some e) = Except.error e ∧
    swallowPermissionDenied (some FsError.permissionDenied)
      = Except.ok () ∧
    swallowPermissionDenied (some (FsError.other m))
      = Except.error (FsError.other m) ∧
    swallowPermissionDenied none = Except.ok () :=
  ⟨rfl, rfl, rfl, rfl, rfl, rfl, rfl⟩
